import Mathlib

set_option maxRecDepth 4000

/-!
Shallow embedding of the turdus_m3rula_GUI repository core:

* `config.py`           — tool paths and working directory constants
* `core/utils.py`       — `find_latest_block` artifact locator
* `core/workflows.py`   — the four workflow step chains
* `core/command.py`     — `CommandThread` (process session with stall
                          auto-restart), `terminate_process`
* `gui/main_window.py`  — `run_command` busy rejection, extraction
                          callbacks, command-string construction

Machine behaviour of a spawned child process is represented by an explicit
per-second event trace (`Tick`), so the `CommandThread.run` loop together
with its one-second `check_dfu_output` monitor is an executable function
of the traces of the successively spawned processes.
-/

namespace Turdus

/-! ### config.py -/

def WORK_DIR : String := "./downgrade_work"

def TURDUSRA1N_PATH : String := "./turdus_m3rula/bin/turdusra1n"

def TURDUS_MERULA_PATH : String := "./turdus_m3rula/bin/turdus_merula"

/-! ### core/workflows.py — data model -/

inductive WorkflowStep where
  | SET_PERMISSIONS
  | ENTER_PWNED_DFU
  | EXTRACT_SHC
  | CHECK_SHC
  | REENTER_DFU_FOR_PTE
  | EXTRACT_PTE
  | CHECK_PTE
  | REENTER_DFU_FOR_RESTORE
  | RESTORE_DEVICE
  | BOOT_DEVICE
  deriving DecidableEq, Repr

structure StepInfo where
  step : WorkflowStep
  button_index : Int
  description : String
  requires_files : List String
  next_step : Option WorkflowStep
  deriving DecidableEq, Repr

structure Workflow where
  key : String
  steps : List (WorkflowStep × StepInfo)
  first_step : Option WorkflowStep
  deriving DecidableEq, Repr

/-- Python dict lookup `self.steps[s]` / `s in self.steps` (keys are unique). -/
def Workflow.findStep (w : Workflow) (s : WorkflowStep) : Option StepInfo :=
  (w.steps.find? (fun p => p.1 == s)).map (fun p => p.2)

/-- `Workflow.get_next_step`: the successor of `current_step`, or `none` when
`current_step` is absent, has no `next_step`, or the successor is absent. -/
def Workflow.get_next_step (w : Workflow) (current_step : WorkflowStep) : Option StepInfo :=
  match w.findStep current_step with
  | none => none
  | some info =>
    match info.next_step with
    | none => none
    | some nxt => w.findStep nxt

/-- `add_step` keyed-insert, transcribed as an association-list append
(each workflow inserts every key exactly once). -/
def Workflow.add_step (w : Workflow) (step : WorkflowStep) (button_index : Int)
    (description : String) (requires_files : List String := [])
    (next_step : Option WorkflowStep := none) : Workflow :=
  { w with steps := w.steps ++
      [(step, ⟨step, button_index, description, requires_files, next_step⟩)] }

/-- `Workflow._init_steps` (base class): the common first step. -/
def Workflow.base (key : String) (desc_head : String) : Workflow :=
  let w : Workflow := ⟨key, [], none⟩
  let w := w.add_step .SET_PERMISSIONS 1
    (desc_head ++ " downgrade: First set tool permissions") []
    (some .ENTER_PWNED_DFU)
  { w with first_step := some .SET_PERMISSIONS }

/-- `A9TetheredWorkflow._init_steps`. -/
def a9_tethered : Workflow :=
  let w := Workflow.base "a9_tethered" "A9+tethered"
  let w := w.add_step .ENTER_PWNED_DFU 2
    "A9+tethered downgrade: Enter Pwned DFU mode" [] (some .EXTRACT_SHC)
  let w := w.add_step .EXTRACT_SHC 3
    "A9+tethered downgrade: Extract SHC Block" [] (some .CHECK_SHC)
  let w := w.add_step .CHECK_SHC (-1)
    "A9+tethered downgrade: Please select an SHC block file to continue" []
    (some .REENTER_DFU_FOR_PTE)
  let w := w.add_step .REENTER_DFU_FOR_PTE 4
    "A9+tethered downgrade: Re-enter Pwned DFU mode to extract PTE Block" []
    (some .EXTRACT_PTE)
  let w := w.add_step .EXTRACT_PTE 5
    "A9+tethered downgrade: Extract PTE Block" ["shcblock"] (some .CHECK_PTE)
  let w := w.add_step .CHECK_PTE (-1)
    "A9+tethered downgrade: Please select a PTE block file to continue" []
    (some .REENTER_DFU_FOR_RESTORE)
  let w := w.add_step .REENTER_DFU_FOR_RESTORE 6
    "A9+tethered downgrade: Re-enter Pwned DFU mode to prepare for device restore" []
    (some .RESTORE_DEVICE)
  let w := w.add_step .RESTORE_DEVICE 7
    "A9+tethered downgrade: Restore device to selected firmware" ["pteblock"]
    (some .BOOT_DEVICE)
  w.add_step .BOOT_DEVICE 8
    "A9+tethered downgrade: Boot the device" ["pteblock"] none

/-- `A10TetheredWorkflow._init_steps`. -/
def a10_tethered : Workflow :=
  let w := Workflow.base "a10_tethered" "A10+tethered"
  let w := w.add_step .ENTER_PWNED_DFU 2
    "A10+tethered downgrade: Enter Pwned DFU mode" [] (some .RESTORE_DEVICE)
  let w := w.add_step .RESTORE_DEVICE 7
    "A10+tethered downgrade: Restore device to selected firmware" []
    (some .REENTER_DFU_FOR_PTE)
  let w := w.add_step .REENTER_DFU_FOR_PTE 4
    "A10+tethered downgrade: Re-enter Pwned DFU mode to prepare for boot" []
    (some .BOOT_DEVICE)
  w.add_step .BOOT_DEVICE 8
    "A10+tethered downgrade: Boot the device" [] none

/-- `A9UntetheredWorkflow._init_steps`. -/
def a9_untethered : Workflow :=
  let w := Workflow.base "a9_untethered" "A9+untethered"
  let w := w.add_step .ENTER_PWNED_DFU 2
    "A9+untethered downgrade: Enter Pwned DFU mode and input Generator" ["shsh"]
    (some .EXTRACT_SHC)
  let w := w.add_step .EXTRACT_SHC 3
    "A9+untethered downgrade: Extract SHC Block" [] (some .CHECK_SHC)
  let w := w.add_step .CHECK_SHC (-1)
    "A9+untethered downgrade: Please select an SHC block file to continue" []
    (some .REENTER_DFU_FOR_RESTORE)
  let w := w.add_step .REENTER_DFU_FOR_RESTORE 4
    "A9+untethered downgrade: Re-enter Pwned DFU mode to prepare for restore" []
    (some .RESTORE_DEVICE)
  w.add_step .RESTORE_DEVICE 7
    "A9+untethered downgrade: Restore device using SHSH and SHC" ["shsh", "shcblock"] none

/-- `A10UntetheredWorkflow._init_steps`. -/
def a10_untethered : Workflow :=
  let w := Workflow.base "a10_untethered" "A10+untethered"
  let w := w.add_step .ENTER_PWNED_DFU 2
    "A10+untethered downgrade: Enter Pwned DFU mode and input Generator" ["shsh"]
    (some .RESTORE_DEVICE)
  w.add_step .RESTORE_DEVICE 7
    "A10+untethered downgrade: Restore device using SHSH" ["shsh"] none

/-- The `WORKFLOWS` registry. -/
def WORKFLOWS : List Workflow :=
  [a9_tethered, a9_untethered, a10_tethered, a10_untethered]

/-- Walking the chain with `get_next_step`, with fuel; `none` means the fuel
ran out before a step without successor was reached. -/
def Workflow.walk (w : Workflow) : Nat → WorkflowStep → Option (List WorkflowStep)
  | 0, _ => none
  | fuel + 1, s =>
    match w.get_next_step s with
    | none => some [s]
    | some info => (w.walk fuel info.step).map (fun c => s :: c)

/-- The chain from the workflow's first step. -/
def Workflow.chain (w : Workflow) (fuel : Nat) : Option (List WorkflowStep) :=
  match w.first_step with
  | none => none
  | some s => w.walk fuel s

/-! ### core/utils.py — `find_latest_block` -/

/-- One file on disk: containing directory, file name, modification time. -/
structure FSFile where
  dir : String
  name : String
  mtime : Nat
  deriving DecidableEq, Repr

/-- The parts of the file system the locator consults. -/
structure FS where
  dirs : List String
  files : List FSFile
  deriving DecidableEq, Repr

/-- `glob` pattern `*-{block_type}.bin`: any non-hidden file name ending in
`-{block_type}.bin` (a leading `*` also matches the empty string; `glob`
skips names beginning with a dot). -/
def matchesBlockPattern (block_type name : String) : Bool :=
  ("-" ++ block_type ++ ".bin").data.isSuffixOf name.data
    && !(name.data.head? == some '.')

/-- The candidate directory list of `find_latest_block`, in source order. -/
def block_dirs (work_dir : String) : List String :=
  [work_dir ++ "/block", work_dir ++ "/blocks", "./block", "./blocks"]

/-- `glob.glob(os.path.join(blocks_dir, pattern))` guarded by
`os.path.exists(blocks_dir)`. -/
def globBlocks (fs : FS) (blocks_dir block_type : String) : List FSFile :=
  if fs.dirs.contains blocks_dir then
    fs.files.filter (fun f => f.dir == blocks_dir && matchesBlockPattern block_type f.name)
  else []

/-- Python `max(files, key=os.path.getmtime)`: the first file of maximal
modification time. -/
def pickLatest (f : FSFile) (rest : List FSFile) : FSFile :=
  rest.foldl (fun best g => if g.mtime > best.mtime then g else best) f

/-- `find_latest_block(block_type, work_dir)`. -/
def find_latest_block (block_type work_dir : String) (fs : FS) : Option FSFile :=
  let all_block_files := (block_dirs work_dir).flatMap (fun d => globBlocks fs d block_type)
  match all_block_files with
  | [] => none
  | f :: rest => some (pickLatest f rest)

/-! ### core/command.py — `CommandThread`

`CommandThread.run` is driven by the behaviour of the child processes it
spawns.  Each spawned process ("generation") is abstracted as a per-second
event trace: at every second the child emits a line, stays silent, reaches
end of its output stream, or the operator invokes `terminate()`.  The
one-second `check_dfu_output` monitor runs at each second boundary before
that second's event is handled. -/

/-- One second of observable behaviour of the current child process. -/
inductive Tick where
  | out (line : String)
  | silent
  | cancel
  | eof
  deriving DecidableEq, Repr

/-- Behaviour of one spawned process: its output trace, and how
`process.wait(timeout=self.timeout)` resolves once the output stream has
ended (`some code` = exits with `code` inside the timeout budget;
`none` = `subprocess.TimeoutExpired`). -/
structure GenBehavior where
  ticks : List Tick
  waitRes : Option Int
  deriving DecidableEq, Repr

/-- How one iteration of the `run` while-loop ended. -/
inductive GenOutcome where
  | exitOk
  | exitFail
  | timedOut
  | stalled
  | cancelled
  deriving DecidableEq, Repr

/-- Result of one loop iteration: the lines emitted to `logOutput` for this
generation, and the outcome. -/
structure GenResult where
  emitted : List String
  outcome : GenOutcome
  deriving DecidableEq, Repr

/-- The streaming read loop of `run` and the `check_dfu_output` monitor for
one spawned process.  `time` is seconds since spawn, `lastOut` the
`last_output_time` (both set at spawn); `emitted` accumulates in reverse.
At each second boundary the monitor fires first: for a DFU command with
more than 5 seconds since the last output it calls `terminate_process`,
ending this generation as `stalled`.  A `cancel` tick is `terminate()`:
the read loop breaks before emitting anything further and `process.wait`
is skipped.  An `eof` tick ends the stream and `process.wait` resolves per
`waitRes`; a non-zero exit code (or a timeout kill) is a failure.
`none` means the trace ran out while the process was still streaming. -/
def runGenGo (isDfu : Bool) (waitRes : Option Int) :
    List Tick → Nat → Nat → List String → Option GenResult
  | ticks, time, lastOut, emitted =>
    if isDfu = true ∧ time + 1 - lastOut > 5 then
      some ⟨emitted.reverse, .stalled⟩
    else
      match ticks with
      | [] => none
      | .silent :: rest => runGenGo isDfu waitRes rest (time + 1) lastOut emitted
      | .out line :: rest => runGenGo isDfu waitRes rest (time + 1) (time + 1) (line :: emitted)
      | .cancel :: _ => some ⟨emitted.reverse, .cancelled⟩
      | .eof :: _ =>
        match waitRes with
        | some code => some ⟨emitted.reverse, if code = 0 then .exitOk else .exitFail⟩
        | none => some ⟨emitted.reverse, .timedOut⟩

/-- One iteration of the `run` while-loop body on one spawned process. -/
def runGen (isDfu : Bool) (g : GenBehavior) : Option GenResult :=
  runGenGo isDfu g.waitRes g.ticks 0 0 []

/-- Final state of `CommandThread.run`: number of processes spawned, all
lines emitted to the observer in order, the `success` flag passed to
`commandComplete`, the final `dfu_auto_retry_count`, and the `terminated`
flag. -/
structure RunResult where
  spawns : Nat
  emitted : List String
  success : Bool
  retries : Nat
  terminated : Bool
  deriving DecidableEq, Repr

/-- The `run` while-loop (`max_dfu_retries = 3`).  `gens` lists the
behaviours of the successively spawned processes.  Loop-top state always
has `success = False` and `terminated = False` (a success or a
`terminate()` ends the loop before the condition is re-evaluated).  A DFU
command retries a failed generation while `dfu_auto_retry_count < 3`; a
non-DFU command breaks after its single iteration; after a `terminate()`
no further process is spawned. -/
def runLoopGo (isDfu : Bool) :
    List GenBehavior → Nat → Nat → List String → Option RunResult
  | gens, retry, spawns, emitted =>
    if (isDfu = true ∧ retry < 3) ∨ isDfu = false then
      match gens with
      | [] => none
      | g :: rest =>
        match runGen isDfu g with
        | none => none
        | some res =>
          match res.outcome with
          | .exitOk => some ⟨spawns + 1, emitted ++ res.emitted, true, retry, false⟩
          | .cancelled =>
            some ⟨spawns + 1, emitted ++ res.emitted, false,
              if isDfu then retry + 1 else retry, true⟩
          | _ =>
            if isDfu then
              runLoopGo isDfu rest (retry + 1) (spawns + 1) (emitted ++ res.emitted)
            else
              some ⟨spawns + 1, emitted ++ res.emitted, false, retry, false⟩
    else
      some ⟨spawns, emitted, false, retry, false⟩

/-- `CommandThread.run`: a session whose `terminated` flag is already set
spawns nothing and reports `success = False`; otherwise the while-loop
runs. -/
def runSession (isDfu terminated0 : Bool) (gens : List GenBehavior) : Option RunResult :=
  if terminated0 then some ⟨0, [], false, 0, true⟩
  else runLoopGo isDfu gens 0 0 []

/-! ### core/command.py — `terminate_process` -/

/-- Process-control primitives the termination policy could invoke.
`taskkill pid force tree`: Windows `taskkill` (`/F` = force, `/T` = whole
tree); `killProcessGroup` is the group-kill primitive (`os.killpg`) that
the source deliberately avoids. -/
inductive KillAction where
  | taskkill (pid : Nat) (force : Bool) (tree : Bool)
  | sigterm (pid : Nat)
  | waitGrace (seconds_tenths : Nat)
  | sigkill (pid : Nat)
  | killProcessGroup (pgid : Nat)
  deriving DecidableEq, Repr

/-- `CommandThread.terminate_process`, as the sequence of process-control
actions it performs on child `pid`.  On `win32`: a forced `taskkill` of
exactly that pid (no `/T`).  Elsewhere: `terminate()` (SIGTERM), then
`wait(timeout=0.5)`; only if the child has not exited inside the grace
period (`exits_in_grace = false`), `kill()` (SIGKILL).  If an action
raises (`raises_at i` = the `i`-th action raises), the `except` handler
falls back to a last `kill()` on the same pid. -/
def terminate_process (platform : String) (pid : Nat) (exits_in_grace : Bool)
    (raises_at : Option Nat) : List KillAction :=
  let primary : List KillAction :=
    if platform == "win32" then
      [.taskkill pid true false]
    else if exits_in_grace then
      [.sigterm pid, .waitGrace 5]
    else
      [.sigterm pid, .waitGrace 5, .sigkill pid]
  match raises_at with
  | none => primary
  | some i => primary.take i ++ [.sigkill pid]

/-- The target of an action: `some pid` for a single-process action,
`none` for the grace-period wait. Group kills target no single pid. -/
def KillAction.singleTarget : KillAction → Option Nat
  | .taskkill pid _ _ => some pid
  | .sigterm pid => some pid
  | .waitGrace _ => none
  | .sigkill pid => some pid
  | .killProcessGroup _ => none

/-- Whether an action is a graceful exit request (SIGTERM / non-forced
taskkill), as opposed to a forced kill. -/
def KillAction.isGraceful : KillAction → Bool
  | .sigterm _ => true
  | .taskkill _ force _ => !force
  | _ => false

/-- Whether an action kills a whole process group / tree. -/
def KillAction.isGroupKill : KillAction → Bool
  | .killProcessGroup _ => true
  | .taskkill _ _ tree => tree
  | _ => false

/-! ### command strings (`gui/main_window.py`, `core/workflows.py`) -/

/-- `CommandThread.__init__`: `self.is_dfu_command = "turdusra1n -ED" in command`. -/
def is_dfu_command (command : String) : Bool :=
  decide ("turdusra1n -ED".data <:+: command.data)

/-- The permissions command (`set_tool_permissions`). -/
def permissions_command : String :=
  "/usr/bin/xattr -c " ++ TURDUSRA1N_PATH ++ " && /usr/bin/xattr -c " ++ TURDUS_MERULA_PATH
    ++ " && chmod +x " ++ TURDUSRA1N_PATH ++ " && chmod +x " ++ TURDUS_MERULA_PATH

/-- Tethered pwned-DFU entry: `{TURDUSRA1N_PATH} -ED`. -/
def enter_dfu_command : String := TURDUSRA1N_PATH ++ " -ED"

/-- Untethered pwned-DFU entry: `{TURDUSRA1N_PATH} -EDb {generator}`. -/
def enter_dfu_untethered_command (generator : String) : String :=
  TURDUSRA1N_PATH ++ " -EDb " ++ generator

/-- SHC block extraction command (`extract_shcblock`). -/
def get_shcblock_command (firmware_path : String) : String :=
  TURDUS_MERULA_PATH ++ " --get-shcblock \"" ++ firmware_path ++ "\""

/-- PTE block extraction command (`extract_pteblock`). -/
def get_pteblock_command (shcblock_path firmware_path : String) : String :=
  TURDUS_MERULA_PATH ++ " --get-pteblock --load-shcblock \"" ++ shcblock_path
    ++ "\" \"" ++ firmware_path ++ "\""

/-- `A9TetheredWorkflow.get_restore_command`. -/
def a9_tethered_restore_command (firmware_path pteblock_path : String) : String :=
  TURDUS_MERULA_PATH ++ " -o --load-pteblock \"" ++ pteblock_path
    ++ "\" \"" ++ firmware_path ++ "\""

/-- `A10TetheredWorkflow.get_restore_command`. -/
def a10_tethered_restore_command (firmware_path : String) : String :=
  TURDUS_MERULA_PATH ++ " -o \"" ++ firmware_path ++ "\""

/-- `A9UntetheredWorkflow.get_restore_command`. -/
def a9_untethered_restore_command (firmware_path shsh_path shcblock_path : String) : String :=
  TURDUS_MERULA_PATH ++ " -w --load-shsh \"" ++ shsh_path ++ "\" --load-shcblock \""
    ++ shcblock_path ++ "\" \"" ++ firmware_path ++ "\""

/-- `A10UntetheredWorkflow.get_restore_command`. -/
def a10_untethered_restore_command (firmware_path shsh_path : String) : String :=
  TURDUS_MERULA_PATH ++ " -w --load-shsh \"" ++ shsh_path ++ "\" \"" ++ firmware_path ++ "\""

/-- `A9TetheredWorkflow.get_boot_command`. -/
def a9_boot_command (pteblock_path : String) : String :=
  TURDUSRA1N_PATH ++ " -TP \"" ++ pteblock_path ++ "\""

/-- A10 tethered boot command (built at runtime in `boot_device`). -/
def a10_boot_command (iboot_file sep_signed_file sep_target_file : String) : String :=
  TURDUSRA1N_PATH ++ " -t \"" ++ iboot_file ++ "\" -i \"" ++ sep_signed_file
    ++ "\" -p \"" ++ sep_target_file ++ "\""

/-! ### gui/main_window.py — command runner guard and step status -/

/-- The per-control status strings used by `update_button_status`. -/
inductive ButtonStatus where
  | Ready
  | InProgress
  | Completed
  | Failed
  | Canceled
  | Partial
  deriving DecidableEq, Repr

/-- The slice of `TurdusGUI` state that `run_command` touches:
`self.command_thread` (`none` = attribute is `None`, otherwise whether
that thread `isRunning()`), how many `CommandThread`s were ever started,
and the log. -/
structure RunnerState where
  command_thread : Option Bool
  threads_started : Nat
  log : List String
  deriving DecidableEq, Repr

/-- Synchronous result of `run_command`. -/
inductive RunCommandOutcome where
  | busy
  | started
  deriving DecidableEq, Repr

/-- `TurdusGUI.run_command`: if a command thread exists and is running, log
the busy message and return without touching anything else; otherwise
construct and start a fresh `CommandThread`. -/
def run_command (st : RunnerState) : RunnerState × RunCommandOutcome :=
  match st.command_thread with
  | some true =>
    ({ st with log := st.log ++
        ["A command is already running. Please wait for it to complete or cancel it."] },
      .busy)
  | _ =>
    ({ st with
        command_thread := some true
        threads_started := st.threads_started + 1 }, .started)

/-- The fallback block search in `_after_extract_shcblock`: glob
`*-shcblock.bin` under `./block` and `./blocks` (each guarded by
`os.path.exists`), copy the most recent hit into the working directory.
`copy_ok = false` models `shutil.copy2` raising, which leaves
`shcblock_path` unset. -/
def fallback_shcblock (fs : FS) (copy_ok : Bool) : Option String :=
  let found_blocks := (["./block", "./blocks"] : List String).flatMap
    (fun d => if fs.dirs.contains d then
        fs.files.filter (fun f => f.dir == d && matchesBlockPattern "shcblock" f.name)
      else [])
  match found_blocks with
  | [] => none
  | f :: rest =>
    if copy_ok then some (WORK_DIR ++ "/block/" ++ (pickLatest f rest).name)
    else none

/-- The `shcblock_path` that `_after_extract_shcblock` ends up with on a
successful command: `find_latest_block`, then the copy fallback. -/
def locate_shcblock (fs : FS) (copy_ok : Bool) : Option String :=
  match find_latest_block "shcblock" WORK_DIR fs with
  | some f => some (f.dir ++ "/" ++ f.name)
  | none => fallback_shcblock fs copy_ok

/-- Outcome of `_after_extract_shcblock`: the status given to the extract
control and the resulting `self.shcblock_path`. -/
structure ExtractOutcome where
  status : ButtonStatus
  shcblock_path : Option String
  deriving DecidableEq, Repr

/-- `TurdusGUI._after_extract_shcblock`: a failed command is `Failed`; a
successful command whose artifact cannot be located is `Partial`
(`shcblock_path` stays unset); otherwise `Completed` with the located
path. -/
def after_extract_shcblock (success : Bool) (fs : FS) (copy_ok : Bool) : ExtractOutcome :=
  if success = false then ⟨.Failed, none⟩
  else
    match locate_shcblock fs copy_ok with
    | none => ⟨.Partial, none⟩
    | some p => ⟨.Completed, some p⟩

/-- The dependent-step gate in `extract_pteblock`: the step is refused
(`False`) when both `self.shcblock_path` and the manually selected widget
path are unset (`None`/empty). -/
def extract_pteblock_allowed (shcblock_path custom_shcblock_path : Option String) : Bool :=
  shcblock_path.isSome || custom_shcblock_path.isSome

/-! ### concrete scenario data used in statements and witnesses -/

/-- The spec scenario: an older `a-shcblock.bin` and a newer
`b-shcblock.bin` in a searched block directory. -/
def exampleFS : FS :=
  ⟨["./downgrade_work/block"],
   [⟨"./downgrade_work/block", "a-shcblock.bin", 100⟩,
    ⟨"./downgrade_work/block", "b-shcblock.bin", 200⟩]⟩

/-- The newer of the two example block files. -/
def exampleB : FSFile := ⟨"./downgrade_work/block", "b-shcblock.bin", 200⟩

/-- A process generation that is silent for five seconds (so the
`check_dfu_output` monitor restarts it). -/
def silentGen : GenBehavior := ⟨List.replicate 5 .silent, some 0⟩

/-- A process generation that prints a line, ends its stream, and exits 0. -/
def okGen : GenBehavior := ⟨[.out "x", .eof], some 0⟩

/-- A generation cancelled by `terminate()` after one output line. -/
def cancelGen : GenBehavior := ⟨[.out "a", .cancel, .out "b"], some 0⟩

/-!
## Theorems
-/

/-- C6: for each of the four statically defined workflows, following
`get_next_step` from the first step reaches a step with no successor in
finitely many hops (fuel 20 suffices), and no step identifier occurs twice
along the chain. -/
theorem workflow_chains_terminate_nodup :
    ∀ w ∈ WORKFLOWS, ∃ chain, w.chain 20 = some chain ∧ chain.Nodup := by
  intro w hw
  simp only [WORKFLOWS, List.mem_cons, List.not_mem_nil, or_false] at hw
  rcases hw with rfl | rfl | rfl | rfl
  · exact ⟨_, rfl, by decide⟩
  · exact ⟨_, rfl, by decide⟩
  · exact ⟨_, rfl, by decide⟩
  · exact ⟨_, rfl, by decide⟩

/-- Witness for C6 at the A9 tethered workflow. -/
theorem workflow_chains_terminate_nodup_witness :
    a9_tethered ∈ WORKFLOWS ∧ ∃ chain, a9_tethered.chain 20 = some chain ∧ chain.Nodup :=
  ⟨List.mem_cons_self _ _, workflow_chains_terminate_nodup a9_tethered (List.mem_cons_self _ _)⟩

/-- C7 counterexample: the A10+tethered step chain does not have exactly 4
steps (it has 5: the re-enter-DFU step and the boot step are distinct). -/
theorem a10_tethered_chain_not_four :
    (a10_tethered.chain 20).map List.length ≠ some 4 := by decide

/-- C7 amended: the A10+tethered chain consists of exactly 5 steps —
permissions, enter pwned DFU, restore, re-enter pwned DFU, boot — and no
step of that workflow lists `shcblock` or `pteblock` in its
`requires_files`. -/
theorem a10_tethered_chain_five_no_blocks :
    a10_tethered.chain 20 = some [.SET_PERMISSIONS, .ENTER_PWNED_DFU, .RESTORE_DEVICE,
      .REENTER_DFU_FOR_PTE, .BOOT_DEVICE] ∧
    a10_tethered.steps.all
      (fun p => !(p.2.requires_files.contains "shcblock")
        && !(p.2.requires_files.contains "pteblock")) = true := by
  constructor
  · rfl
  · decide

/-- C5: calling `run_command` while a command thread is running is rejected
synchronously with the busy message: no new thread is started and the
running session's thread reference is untouched. -/
theorem run_command_busy_rejected (st : RunnerState) (h : st.command_thread = some true) :
    (run_command st).2 = .busy ∧
    (run_command st).1.command_thread = st.command_thread ∧
    (run_command st).1.threads_started = st.threads_started := by
  simp [run_command, h]

/-- Witness for C5 on a concrete busy state. -/
theorem run_command_busy_rejected_witness :
    (⟨some true, 5, []⟩ : RunnerState).command_thread = some true ∧
    ((run_command ⟨some true, 5, []⟩).2 = .busy ∧
      (run_command ⟨some true, 5, []⟩).1.command_thread = (⟨some true, 5, []⟩ : RunnerState).command_thread ∧
      (run_command ⟨some true, 5, []⟩).1.threads_started = (⟨some true, 5, []⟩ : RunnerState).threads_started) :=
  ⟨rfl, run_command_busy_rejected ⟨some true, 5, []⟩ rfl⟩

/-- C3 counterexample: on `win32` the first (and only) action of
`terminate_process` is a forced `taskkill`, not a graceful exit request —
no grace period precedes the force-kill on that platform. -/
theorem terminate_process_win32_not_graceful :
    ((terminate_process "win32" 42 true none).map KillAction.isGraceful) = [false] ∧
    terminate_process "win32" 42 true none = [.taskkill 42 true false] := by
  constructor <;> rfl

/-- C3 amended: on non-Windows platforms `terminate_process` first sends
SIGTERM, waits the 0.5 s grace period, and force-kills only if the child
has not exited; on Windows it immediately force-kills. On every platform
and in every fallback path it targets only the exact child pid and never
invokes a kill-the-whole-process-group primitive. -/
theorem terminate_process_targets_child_only (platform : String) (pid : Nat)
    (exits_in_grace : Bool) (raises_at : Option Nat) :
    (∀ a ∈ terminate_process platform pid exits_in_grace raises_at,
        a.isGroupKill = false ∧ ∀ q, a.singleTarget = some q → q = pid) ∧
    (platform ≠ "win32" → exits_in_grace = false →
      terminate_process platform pid exits_in_grace none =
        [.sigterm pid, .waitGrace 5, .sigkill pid]) ∧
    (platform ≠ "win32" → exits_in_grace = true →
      terminate_process platform pid exits_in_grace none =
        [.sigterm pid, .waitGrace 5]) ∧
    terminate_process "win32" pid exits_in_grace none = [.taskkill pid true false] := by
  refine ⟨?_, ?_, ?_, ?_⟩
  · intro a ha
    have key : ∀ x ∈ ([KillAction.taskkill pid true false, .sigterm pid,
        .waitGrace 5, .sigkill pid] : List KillAction),
        x.isGroupKill = false ∧ ∀ q, x.singleTarget = some q → q = pid := by
      intro x hx
      fin_cases hx <;> refine ⟨rfl, ?_⟩ <;> intro q hq <;>
        simp [KillAction.singleTarget] at hq <;> omega
    apply key
    have hpr : ∀ x ∈ (if (platform == "win32") = true then
          [KillAction.taskkill pid true false]
        else if exits_in_grace = true then
          [KillAction.sigterm pid, KillAction.waitGrace 5]
        else [KillAction.sigterm pid, KillAction.waitGrace 5, KillAction.sigkill pid]),
        x ∈ ([KillAction.taskkill pid true false, KillAction.sigterm pid,
          KillAction.waitGrace 5, KillAction.sigkill pid] : List KillAction) := by
      intro x hx
      split_ifs at hx <;> fin_cases hx <;> simp
    rcases raises_at with _ | i
    · exact hpr a (by simpa [terminate_process] using ha)
    · simp only [terminate_process] at ha
      rcases List.mem_append.mp ha with h1 | h1
      · exact hpr a (List.take_subset i _ h1)
      · rcases List.mem_singleton.mp h1 with rfl
        simp
  · intro hp he
    have : (platform == "win32") = false := by
      simpa using hp
    simp [terminate_process, this, he]
  · intro hp he
    have : (platform == "win32") = false := by
      simpa using hp
    simp [terminate_process, this, he]
  · simp [terminate_process]

/-- Witness for C3 on a concrete POSIX invocation. -/
theorem terminate_process_targets_child_only_witness :
    ("linux" : String) ≠ "win32" ∧
    terminate_process "linux" 42 false none = [.sigterm 42, .waitGrace 5, .sigkill 42] := by
  have h := terminate_process_targets_child_only "linux" 42 false none
  exact ⟨by decide, h.2.1 (by decide) rfl⟩

lemma pickLatest_cons (f g : FSFile) (gs : List FSFile) :
    pickLatest f (g :: gs) = pickLatest (if g.mtime > f.mtime then g else f) gs := rfl

lemma pickLatest_mem (f : FSFile) (rest : List FSFile) : pickLatest f rest ∈ f :: rest := by
  induction rest generalizing f with
  | nil => simp [pickLatest]
  | cons g gs ih =>
    rw [pickLatest_cons]
    rcases List.mem_cons.mp (ih (if g.mtime > f.mtime then g else f)) with h | h
    · rw [h]
      split_ifs <;> simp
    · simp [h]

lemma le_pickLatest (f : FSFile) (rest : List FSFile) :
    ∀ x ∈ f :: rest, x.mtime ≤ (pickLatest f rest).mtime := by
  induction rest generalizing f with
  | nil =>
    intro x hx
    rcases List.mem_cons.mp hx with rfl | h
    · simp [pickLatest]
    · simp at h
  | cons g gs ih =>
    intro x hx
    rw [pickLatest_cons]
    have hbase : f.mtime ≤ (if g.mtime > f.mtime then g else f).mtime ∧
        g.mtime ≤ (if g.mtime > f.mtime then g else f).mtime := by
      split_ifs with h <;> omega
    rcases List.mem_cons.mp hx with rfl | hx2
    · exact le_trans hbase.1 (ih _ _ (List.mem_cons_self _ _))
    · rcases List.mem_cons.mp hx2 with rfl | hx3
      · exact le_trans hbase.2 (ih _ _ (List.mem_cons_self _ _))
      · exact ih _ x (List.mem_cons_of_mem _ hx3)

/-- Membership in the accumulated candidate list of `find_latest_block`. -/
lemma mem_allBlocks (block_type work_dir : String) (fs : FS) (x : FSFile) :
    (x ∈ (block_dirs work_dir).flatMap (fun d => globBlocks fs d block_type)) ↔
      (x ∈ fs.files ∧ x.dir ∈ block_dirs work_dir ∧ fs.dirs.contains x.dir = true ∧
        matchesBlockPattern block_type x.name = true) := by
  rw [List.mem_flatMap]
  constructor
  · rintro ⟨d, hd, hx⟩
    rw [globBlocks] at hx
    split_ifs at hx with hc
    · rcases List.mem_filter.mp hx with ⟨hmem, hcond⟩
      simp only [Bool.and_eq_true, beq_iff_eq] at hcond
      obtain ⟨hdir, hmat⟩ := hcond
      subst hdir
      exact ⟨hmem, hd, hc, hmat⟩
    · simp at hx
  · rintro ⟨hmem, hd, hc, hmat⟩
    refine ⟨x.dir, hd, ?_⟩
    rw [globBlocks, if_pos hc]
    exact List.mem_filter.mpr ⟨hmem, by simp [hmat]⟩

/-- C8: `find_latest_block` considers exactly the non-hidden files matching
`*-<kind>.bin` inside existing candidate block directories; a returned file
is such a candidate of maximal modification time; `none` is returned
exactly when there is no candidate.  On the spec scenario (an older
`a-shcblock.bin`, a newer `b-shcblock.bin`) it returns the newer file. -/
theorem find_latest_block_max_mtime (block_type work_dir : String) (fs : FS) :
    (∀ f, find_latest_block block_type work_dir fs = some f →
      f ∈ fs.files ∧ f.dir ∈ block_dirs work_dir ∧ fs.dirs.contains f.dir = true ∧
        matchesBlockPattern block_type f.name = true ∧
        ∀ g ∈ fs.files, g.dir ∈ block_dirs work_dir → fs.dirs.contains g.dir = true →
          matchesBlockPattern block_type g.name = true → g.mtime ≤ f.mtime) ∧
    (find_latest_block block_type work_dir fs = none ↔
      ∀ g ∈ fs.files, g.dir ∈ block_dirs work_dir → fs.dirs.contains g.dir = true →
        matchesBlockPattern block_type g.name = false) ∧
    find_latest_block "shcblock" "./downgrade_work" exampleFS = some exampleB := by
  refine ⟨?_, ?_, by decide⟩
  · intro f hf
    rw [find_latest_block] at hf
    rcases hall : (block_dirs work_dir).flatMap (fun d => globBlocks fs d block_type) with
      _ | ⟨y, ys⟩
    · rw [hall] at hf; simp at hf
    · rw [hall] at hf
      simp only [Option.some.injEq] at hf
      have hmemf : f ∈ y :: ys := hf ▸ pickLatest_mem y ys
      have hprops := (mem_allBlocks block_type work_dir fs f).mp (by rw [hall]; exact hmemf)
      refine ⟨hprops.1, hprops.2.1, hprops.2.2.1, hprops.2.2.2, ?_⟩
      intro g hg hgd hgc hgm
      have hgall : g ∈ y :: ys := by
        rw [← hall]
        exact (mem_allBlocks block_type work_dir fs g).mpr ⟨hg, hgd, hgc, hgm⟩
      calc g.mtime ≤ (pickLatest y ys).mtime := le_pickLatest y ys g hgall
        _ = f.mtime := by rw [hf]
  · rw [find_latest_block]
    rcases hall : (block_dirs work_dir).flatMap (fun d => globBlocks fs d block_type) with
      _ | ⟨y, ys⟩
    · simp only [true_iff]
      intro g hg hgd hgc
      by_contra hgm
      have hgm2 : matchesBlockPattern block_type g.name = true := by
        simpa using hgm
      have : g ∈ ([] : List FSFile) := by
        rw [← hall]
        exact (mem_allBlocks block_type work_dir fs g).mpr ⟨hg, hgd, hgc, hgm2⟩
      simp at this
    · constructor
      · intro h
        simp at h
      · intro hnone
        exfalso
        have hy := (mem_allBlocks block_type work_dir fs y).mp (by rw [hall]; simp)
        have hfalse := hnone y hy.1 hy.2.1 hy.2.2.1
        rw [hy.2.2.2] at hfalse
        exact Bool.true_eq_false.mp hfalse

/-- Witness for C8 on the concrete two-file scenario. -/
theorem find_latest_block_max_mtime_witness :
    find_latest_block "shcblock" "./downgrade_work" exampleFS = some exampleB ∧
    exampleB ∈ exampleFS.files ∧ matchesBlockPattern "shcblock" exampleB.name = true := by
  have h := (find_latest_block_max_mtime "shcblock" "./downgrade_work" exampleFS).1
    exampleB (by decide)
  exact ⟨(find_latest_block_max_mtime "shcblock" "./downgrade_work" exampleFS).2.2,
    h.1, h.2.2.2.1⟩

lemma no_candidates_find_none (block_type work_dir : String) (fs : FS)
    (h : ∀ f ∈ fs.files, f.dir ∈ block_dirs work_dir → fs.dirs.contains f.dir = true →
      matchesBlockPattern block_type f.name = false) :
    find_latest_block block_type work_dir fs = none := by
  rw [find_latest_block]
  have hall : (block_dirs work_dir).flatMap (fun d => globBlocks fs d block_type) = [] := by
    rw [List.eq_nil_iff_forall_not_mem]
    intro x hx
    have hp := (mem_allBlocks block_type work_dir fs x).mp hx
    have hfalse := h x hp.1 hp.2.1 hp.2.2.1
    rw [hp.2.2.2] at hfalse
    exact Bool.true_eq_false.mp hfalse
  rw [hall]

lemma no_candidates_fallback_none (fs : FS) (copy_ok : Bool)
    (h : ∀ f ∈ fs.files, f.dir ∈ block_dirs WORK_DIR → fs.dirs.contains f.dir = true →
      matchesBlockPattern "shcblock" f.name = false) :
    fallback_shcblock fs copy_ok = none := by
  rw [fallback_shcblock]
  have hfound : (["./block", "./blocks"] : List String).flatMap
      (fun d => if fs.dirs.contains d then
        fs.files.filter (fun f => f.dir == d && matchesBlockPattern "shcblock" f.name)
      else []) = [] := by
    rw [List.eq_nil_iff_forall_not_mem]
    intro x hx
    rcases List.mem_flatMap.mp hx with ⟨d, hd, hx2⟩
    split_ifs at hx2 with hc
    · rcases List.mem_filter.mp hx2 with ⟨hmem, hcond⟩
      simp only [Bool.and_eq_true, beq_iff_eq] at hcond
      obtain ⟨hdir, hmat⟩ := hcond
      subst hdir
      have hdirs : x.dir ∈ block_dirs WORK_DIR := by
        simp only [List.mem_cons, List.not_mem_nil, or_false] at hd
        rcases hd with h1 | h1 <;> rw [h1] <;> decide
      have hfalse := h x hmem hdirs hc
      rw [hmat] at hfalse
      exact Bool.true_eq_false.mp hfalse
    · simp at hx2
  rw [hfound]

/-- C9: when the extraction command succeeds but no `*-shcblock.bin`
candidate exists in any searched directory, `_after_extract_shcblock`
sets the step status to `Partial` — not `Failed` — and leaves
`shcblock_path` unset, so the dependent PTE-extraction step stays blocked
until a manual path is supplied to the widget. -/
theorem extract_partial_when_no_artifact (fs : FS) (copy_ok : Bool)
    (h : ∀ f ∈ fs.files, f.dir ∈ block_dirs WORK_DIR → fs.dirs.contains f.dir = true →
      matchesBlockPattern "shcblock" f.name = false) :
    after_extract_shcblock true fs copy_ok = ⟨.Partial, none⟩ ∧
    (after_extract_shcblock true fs copy_ok).status ≠ .Failed ∧
    extract_pteblock_allowed none none = false ∧
    (∀ p, extract_pteblock_allowed none (some p) = true) := by
  have hloc : locate_shcblock fs copy_ok = none := by
    rw [locate_shcblock, no_candidates_find_none "shcblock" WORK_DIR fs h]
    exact no_candidates_fallback_none fs copy_ok h
  have hout : after_extract_shcblock true fs copy_ok = ⟨.Partial, none⟩ := by
    rw [after_extract_shcblock]
    simp [hloc]
  refine ⟨hout, ?_, rfl, fun p => rfl⟩
  rw [hout]
  simp

/-- Witness for C9: a file system whose only block-directory file is not a
`*-shcblock.bin` candidate. -/
theorem extract_partial_when_no_artifact_witness :
    (∀ f ∈ (⟨["./downgrade_work/block"],
        [⟨"./downgrade_work/block", "readme.txt", 5⟩]⟩ : FS).files,
      f.dir ∈ block_dirs WORK_DIR →
      (⟨["./downgrade_work/block"],
        [⟨"./downgrade_work/block", "readme.txt", 5⟩]⟩ : FS).dirs.contains f.dir = true →
      matchesBlockPattern "shcblock" f.name = false) ∧
    after_extract_shcblock true
      ⟨["./downgrade_work/block"], [⟨"./downgrade_work/block", "readme.txt", 5⟩]⟩ true =
      ⟨.Partial, none⟩ :=
  ⟨by decide,
    (extract_partial_when_no_artifact
      ⟨["./downgrade_work/block"], [⟨"./downgrade_work/block", "readme.txt", 5⟩]⟩ true
      (by decide)).1⟩

lemma runGen_silent_stalls (w : Option Int) (rest : List Tick) :
    runGen true ⟨List.replicate 5 .silent ++ rest, w⟩ = some ⟨[], .stalled⟩ := by
  simp [runGen, runGenGo, List.replicate]
  rw [runGenGo.eq_def]
  simp

lemma runLoop_step_fail (g : GenBehavior) (rest : List GenBehavior) (retry spawns : Nat)
    (emitted e : List String) (hret : retry < 3) (ho : runGen true g = some ⟨e, .stalled⟩) :
    runLoopGo true (g :: rest) retry spawns emitted =
      runLoopGo true rest (retry + 1) (spawns + 1) (emitted ++ e) := by
  rw [runLoopGo.eq_def]
  simp [hret, ho]

lemma runLoop_step_ok (g : GenBehavior) (rest : List GenBehavior) (retry spawns : Nat)
    (emitted e : List String) (hret : retry < 3) (ho : runGen true g = some ⟨e, .exitOk⟩) :
    runLoopGo true (g :: rest) retry spawns emitted =
      some ⟨spawns + 1, emitted ++ e, true, retry, false⟩ := by
  rw [runLoopGo.eq_def]
  simp [hret, ho]

lemma runLoop_exhaust (gens : List GenBehavior) (spawns : Nat) (emitted : List String) :
    runLoopGo true gens 3 spawns emitted = some ⟨spawns, emitted, false, 3, false⟩ := by
  rw [runLoopGo.eq_def]
  simp

/-- C1: a stall-sensitive (DFU) session that produces no output for 5
seconds is killed by the monitor and — while the retry budget lasts —
restarted exactly once per stall (one stall followed by a good run means
exactly 2 spawned processes); after 3 consecutive stalls the session ends
with `success = false`, three processes having been spawned and no fourth
attempted, delivered as a normal completion result (`some`, via
`commandComplete`), not a fatal error. -/
theorem dfu_stall_restart_budget :
    (∀ (w : Option Int) (rest : List Tick),
      runGen true ⟨List.replicate 5 .silent ++ rest, w⟩ = some ⟨[], .stalled⟩) ∧
    (∀ (g1 g2 : GenBehavior) (rest : List GenBehavior) (e1 e2 : List String),
      runGen true g1 = some ⟨e1, .stalled⟩ → runGen true g2 = some ⟨e2, .exitOk⟩ →
      runSession true false (g1 :: g2 :: rest) = some ⟨2, e1 ++ e2, true, 1, false⟩) ∧
    (∀ (g1 g2 g3 : GenBehavior) (rest : List GenBehavior) (e1 e2 e3 : List String),
      runGen true g1 = some ⟨e1, .stalled⟩ → runGen true g2 = some ⟨e2, .stalled⟩ →
      runGen true g3 = some ⟨e3, .stalled⟩ →
      runSession true false (g1 :: g2 :: g3 :: rest) =
        some ⟨3, e1 ++ e2 ++ e3, false, 3, false⟩) := by
  refine ⟨runGen_silent_stalls, ?_, ?_⟩
  · intro g1 g2 rest e1 e2 h1 h2
    rw [runSession, if_neg (by simp)]
    rw [runLoop_step_fail g1 _ 0 0 [] e1 (by omega) h1]
    rw [runLoop_step_ok g2 _ 1 1 _ e2 (by omega) h2]
    simp
  · intro g1 g2 g3 rest e1 e2 e3 h1 h2 h3
    rw [runSession, if_neg (by simp)]
    rw [runLoop_step_fail g1 _ 0 0 [] e1 (by omega) h1]
    rw [runLoop_step_fail g2 _ 1 1 _ e2 (by omega) h2]
    rw [runLoop_step_fail g3 _ 2 2 _ e3 (by omega) h3]
    rw [runLoop_exhaust]
    simp

/-- Witness for C1 on concrete stalling and succeeding generations. -/
theorem dfu_stall_restart_budget_witness :
    runGen true silentGen = some ⟨[], .stalled⟩ ∧
    runSession true false [silentGen, okGen] = some ⟨2, ["x"], true, 1, false⟩ ∧
    runSession true false [silentGen, silentGen, silentGen] =
      some ⟨3, [], false, 3, false⟩ := by
  have h := dfu_stall_restart_budget
  refine ⟨?_, ?_, ?_⟩
  · simpa [silentGen] using h.1 (some 0) []
  · simpa using h.2.1 silentGen okGen [] [] ["x"] (by decide) (by decide)
  · simpa using h.2.2 silentGen silentGen silentGen [] [] [] [] (by decide) (by decide)
      (by decide)

/-- C2: the `terminated` flag is monotonic.  A `terminate()` (cancel)
event ends the read loop at once: no line after it is emitted and the
result does not depend on the remainder of the trace; in the outer loop a
cancelled generation yields the final result immediately — no further
process is spawned no matter what behaviours would have followed — with
`success = false` and `terminated = true`; and a session whose flag is
already set spawns nothing and emits nothing. -/
theorem terminated_monotonic :
    (∀ (isDfu : Bool) (w : Option Int) (rest : List Tick) (time lastOut : Nat)
        (emitted : List String),
      ¬(isDfu = true ∧ time + 1 - lastOut > 5) →
      runGenGo isDfu w (.cancel :: rest) time lastOut emitted =
        some ⟨emitted.reverse, .cancelled⟩) ∧
    (∀ (isDfu : Bool) (g : GenBehavior) (e : List String) (retry spawns : Nat)
        (emitted : List String) (rest rest2 : List GenBehavior),
      runGen isDfu g = some ⟨e, .cancelled⟩ →
      runLoopGo isDfu (g :: rest) retry spawns emitted =
        runLoopGo isDfu (g :: rest2) retry spawns emitted) ∧
    (∀ (isDfu : Bool) (g : GenBehavior) (e : List String) (retry spawns : Nat)
        (emitted : List String) (rest : List GenBehavior),
      runGen isDfu g = some ⟨e, .cancelled⟩ →
      ((isDfu = true ∧ retry < 3) ∨ isDfu = false) →
      runLoopGo isDfu (g :: rest) retry spawns emitted =
        some ⟨spawns + 1, emitted ++ e, false, if isDfu then retry + 1 else retry, true⟩) ∧
    (∀ (isDfu : Bool) (gens : List GenBehavior),
      runSession isDfu true gens = some ⟨0, [], false, 0, true⟩) := by
  refine ⟨?_, ?_, ?_, ?_⟩
  · intro isDfu w rest time lastOut emitted h
    rw [runGenGo.eq_def]
    simp [h]
  · intro isDfu g e retry spawns emitted rest rest2 h
    conv_lhs => rw [runLoopGo.eq_def]
    conv_rhs => rw [runLoopGo.eq_def]
    simp [h]
  · intro isDfu g e retry spawns emitted rest h hguard
    rw [runLoopGo.eq_def]
    simp [h, hguard]
  · intro isDfu gens
    rw [runSession, if_pos rfl]

/-- Witness for C2 on a concrete cancelled generation. -/
theorem terminated_monotonic_witness :
    runGenGo true (some 0) [.cancel, .out "b"] 1 1 ["a"] = some ⟨["a"], .cancelled⟩ ∧
    runLoopGo true [cancelGen, okGen] 0 0 [] = runLoopGo true [cancelGen] 0 0 [] ∧
    runLoopGo true [cancelGen] 0 0 [] = some ⟨1, ["a"], false, 1, true⟩ ∧
    runSession true true [okGen] = some ⟨0, [], false, 0, true⟩ := by
  have h := terminated_monotonic
  refine ⟨?_, ?_, ?_, h.2.2.2 true [okGen]⟩
  · simpa using h.1 true (some 0) [.out "b"] 1 1 ["a"] (by simp)
  · exact h.2.1 true cancelGen ["a"] 0 0 [] [okGen] [] (by decide)
  · simpa using h.2.2.1 true cancelGen ["a"] 0 0 [] [] (by decide) (Or.inl ⟨rfl, by omega⟩)

/-- C4: once the output stream ends, `process.wait(timeout)` decides the
result: success exactly when the exit code is zero; a `TimeoutExpired`
(`waitRes = none`) means the process is killed and the result is a
failure.  A non-stall-sensitive command is spawned exactly once — on
failure or timeout there is no automatic restart. -/
theorem wait_for_completion_semantics :
    (∀ (w : Option Int) (rest : List Tick) (time lastOut : Nat) (emitted : List String),
      runGenGo false w (.eof :: rest) time lastOut emitted =
        some ⟨emitted.reverse,
          match w with
          | some code => if code = 0 then .exitOk else .exitFail
          | none => .timedOut⟩) ∧
    (∀ (g : GenBehavior) (e : List String) (rest : List GenBehavior),
      runGen false g = some ⟨e, .exitOk⟩ →
      runSession false false (g :: rest) = some ⟨1, e, true, 0, false⟩) ∧
    (∀ (g : GenBehavior) (e : List String) (rest : List GenBehavior),
      runGen false g = some ⟨e, .exitFail⟩ →
      runSession false false (g :: rest) = some ⟨1, e, false, 0, false⟩) ∧
    (∀ (g : GenBehavior) (e : List String) (rest : List GenBehavior),
      runGen false g = some ⟨e, .timedOut⟩ →
      runSession false false (g :: rest) = some ⟨1, e, false, 0, false⟩) := by
  refine ⟨?_, ?_, ?_, ?_⟩
  · intro w rest time lastOut emitted
    rcases w with _ | code <;> rw [runGenGo.eq_def] <;> simp
  · intro g e rest h
    rw [runSession, if_neg (by simp), runLoopGo.eq_def]
    simp [h]
  · intro g e rest h
    rw [runSession, if_neg (by simp), runLoopGo.eq_def]
    simp [h]
  · intro g e rest h
    rw [runSession, if_neg (by simp), runLoopGo.eq_def]
    simp [h]

/-- Witness for C4 on concrete exit-0, exit-2 and timed-out runs. -/
theorem wait_for_completion_semantics_witness :
    runGenGo false (some 0) [.eof] 0 0 [] = some ⟨[], .exitOk⟩ ∧
    runSession false false [okGen] = some ⟨1, ["x"], true, 0, false⟩ ∧
    runSession false false [⟨[.eof], some 2⟩] = some ⟨1, [], false, 0, false⟩ ∧
    runSession false false [⟨[.out "a", .eof], none⟩] = some ⟨1, ["a"], false, 0, false⟩ := by
  have h := wait_for_completion_semantics
  refine ⟨?_, ?_, ?_, ?_⟩
  · simpa using h.1 (some 0) [] 0 0 []
  · exact h.2.1 okGen ["x"] [] (by decide)
  · exact h.2.2.1 ⟨[.eof], some 2⟩ [] [] (by decide)
  · exact h.2.2.2 ⟨[.out "a", .eof], none⟩ ["a"] [] (by decide)

lemma mem_of_getLastQ {l : List Char} {c : Char} (hne : l ≠ []) (h : l.getLast? = some c) :
    c ∈ l := by
  rw [List.getLast?_eq_getLast_of_ne_nil hne] at h
  have h2 := Option.some.inj h
  rw [← h2]
  exact List.getLast_mem hne

lemma mem_of_headQ {l : List Char} {c : Char} (h : l.head? = some c) : c ∈ l := by
  rcases l with _ | ⟨x, xs⟩
  · simp at h
  · simp only [List.head?_cons, Option.some.injEq] at h
    rw [← h]
    exact List.mem_cons_self _ _

lemma infix_append_cases (n a b : List Char) (h : n <:+: a ++ b) :
    n <:+: a ∨ n <:+: b ∨
      ∃ n1 n2, n = n1 ++ n2 ∧ n1 ≠ [] ∧ n2 ≠ [] ∧ n1 <:+ a ∧ n2 <+: b := by
  obtain ⟨s, t, hst⟩ := h
  rw [List.append_assoc] at hst
  rcases List.append_eq_append_iff.mp hst with ⟨x, hax, hnt⟩ | ⟨x, hsx, hbx⟩
  · rcases List.append_eq_append_iff.mp hnt with ⟨y, hxy, hty⟩ | ⟨y, hny, hby⟩
    · left
      exact ⟨s, y, by rw [hax, hxy, List.append_assoc]⟩
    · rcases eq_or_ne x [] with rfl | hx
      · right; left
        simp only [List.nil_append] at hny
        exact ⟨[], t, by rw [hby, hny]; simp⟩
      · rcases eq_or_ne y [] with rfl | hy
        · left
          simp only [List.append_nil] at hny
          exact ⟨s, [], by rw [hax, hny]; simp⟩
        · right; right
          exact ⟨x, y, hny, hx, hy, ⟨s, hax.symm⟩, ⟨t, hby.symm⟩⟩
  · right; left
    exact ⟨x, t, by rw [hbx, List.append_assoc]⟩

lemma not_infix_append_endQuote (n a b : List Char) (hq : Char.ofNat 34 ∉ n)
    (hlast : a.getLast? = some (Char.ofNat 34)) (ha : ¬ n <:+: a) (hb : ¬ n <:+: b) :
    ¬ n <:+: a ++ b := by
  intro h
  rcases infix_append_cases n a b h with h1 | h1 | ⟨n1, n2, hn, hn1, hn2, hsuf, hpre⟩
  · exact ha h1
  · exact hb h1
  · obtain ⟨s, hs⟩ := hsuf
    rw [← hs, List.getLast?_append_of_ne_nil s hn1] at hlast
    exact hq (hn ▸ List.mem_append_left n2 (mem_of_getLastQ hn1 hlast))

lemma not_infix_append_startQuote (n a b : List Char) (hq : Char.ofNat 34 ∉ n)
    (hhead : b.head? = some (Char.ofNat 34)) (ha : ¬ n <:+: a) (hb : ¬ n <:+: b) :
    ¬ n <:+: a ++ b := by
  intro h
  rcases infix_append_cases n a b h with h1 | h1 | ⟨n1, n2, hn, hn1, hn2, hsuf, hpre⟩
  · exact ha h1
  · exact hb h1
  · obtain ⟨t, ht⟩ := hpre
    have hh : n2.head? = some (Char.ofNat 34) := by
      rcases n2 with _ | ⟨c, cs⟩
      · exact absurd rfl hn2
      · rw [← ht] at hhead
        simpa using hhead
    exact hq (hn ▸ List.mem_append_right n1 (mem_of_headQ hh))

lemma head?_append_left (a b : List Char) (c : Char) (h : a.head? = some c) :
    (a ++ b).head? = some c := by
  rcases a with _ | ⟨x, xs⟩
  · simp at h
  · simpa using h

lemma not_dfu_get_shcblock (fw : String) (h : ¬ ("turdusra1n -ED".data <:+: fw.data)) :
    ¬ ("turdusra1n -ED".data <:+: (get_shcblock_command fw).data) := by
  have hdata : (get_shcblock_command fw).data =
      (TURDUS_MERULA_PATH ++ " --get-shcblock \"").data ++ (fw.data ++ ("\"" : String).data) := by
    simp [get_shcblock_command, String.data_append]
  rw [hdata]
  exact not_infix_append_endQuote _ _ _ (by decide) (by decide) (by decide)
    (not_infix_append_startQuote _ _ _ (by decide) (by decide) h (by decide))


lemma ndfu_close (argd : List Char) (h : ¬ ("turdusra1n -ED".data <:+: argd)) :
    ¬ ("turdusra1n -ED".data <:+: argd ++ ("\"" : String).data) :=
  not_infix_append_startQuote _ _ _ (by decide) (by decide) h (by decide)

lemma ndfu_mid (mid : String) (hm1 : mid.data.head? = some (Char.ofNat 34))
    (hm2 : mid.data.getLast? = some (Char.ofNat 34))
    (hm3 : ¬ ("turdusra1n -ED".data <:+: mid.data))
    (argd rest : List Char)
    (harg : ¬ ("turdusra1n -ED".data <:+: argd))
    (hrest : ¬ ("turdusra1n -ED".data <:+: rest)) :
    ¬ ("turdusra1n -ED".data <:+: argd ++ (mid.data ++ rest)) :=
  not_infix_append_startQuote _ _ _ (by decide) (head?_append_left _ _ _ hm1) harg
    (not_infix_append_endQuote _ _ _ (by decide) hm2 hm3 hrest)

lemma not_dfu_get_pteblock (shc fw : String)
    (h1 : ¬ ("turdusra1n -ED".data <:+: shc.data))
    (h2 : ¬ ("turdusra1n -ED".data <:+: fw.data)) :
    ¬ ("turdusra1n -ED".data <:+: (get_pteblock_command shc fw).data) := by
  have hdata : (get_pteblock_command shc fw).data =
      (TURDUS_MERULA_PATH ++ " --get-pteblock --load-shcblock \"").data ++
        (shc.data ++ (("\" \"" : String).data ++ (fw.data ++ ("\"" : String).data))) := by
    simp [get_pteblock_command, String.data_append]
  rw [hdata]
  exact not_infix_append_endQuote _ _ _ (by decide) (by decide) (by decide)
    (ndfu_mid "\" \"" (by decide) (by decide) (by decide) _ _ h1 (ndfu_close _ h2))

lemma not_dfu_a9t_restore (fw pte : String)
    (h1 : ¬ ("turdusra1n -ED".data <:+: fw.data))
    (h2 : ¬ ("turdusra1n -ED".data <:+: pte.data)) :
    ¬ ("turdusra1n -ED".data <:+: (a9_tethered_restore_command fw pte).data) := by
  have hdata : (a9_tethered_restore_command fw pte).data =
      (TURDUS_MERULA_PATH ++ " -o --load-pteblock \"").data ++
        (pte.data ++ (("\" \"" : String).data ++ (fw.data ++ ("\"" : String).data))) := by
    simp [a9_tethered_restore_command, String.data_append]
  rw [hdata]
  exact not_infix_append_endQuote _ _ _ (by decide) (by decide) (by decide)
    (ndfu_mid "\" \"" (by decide) (by decide) (by decide) _ _ h2 (ndfu_close _ h1))

lemma not_dfu_a10t_restore (fw : String)
    (h1 : ¬ ("turdusra1n -ED".data <:+: fw.data)) :
    ¬ ("turdusra1n -ED".data <:+: (a10_tethered_restore_command fw).data) := by
  have hdata : (a10_tethered_restore_command fw).data =
      (TURDUS_MERULA_PATH ++ " -o \"").data ++ (fw.data ++ ("\"" : String).data) := by
    simp [a10_tethered_restore_command, String.data_append]
  rw [hdata]
  exact not_infix_append_endQuote _ _ _ (by decide) (by decide) (by decide) (ndfu_close _ h1)

lemma not_dfu_a9u_restore (fw shsh shc : String)
    (h1 : ¬ ("turdusra1n -ED".data <:+: fw.data))
    (h2 : ¬ ("turdusra1n -ED".data <:+: shsh.data))
    (h3 : ¬ ("turdusra1n -ED".data <:+: shc.data)) :
    ¬ ("turdusra1n -ED".data <:+: (a9_untethered_restore_command fw shsh shc).data) := by
  have hdata : (a9_untethered_restore_command fw shsh shc).data =
      (TURDUS_MERULA_PATH ++ " -w --load-shsh \"").data ++
        (shsh.data ++ (("\" --load-shcblock \"" : String).data ++
          (shc.data ++ (("\" \"" : String).data ++ (fw.data ++ ("\"" : String).data))))) := by
    simp [a9_untethered_restore_command, String.data_append]
  rw [hdata]
  exact not_infix_append_endQuote _ _ _ (by decide) (by decide) (by decide)
    (ndfu_mid "\" --load-shcblock \"" (by decide) (by decide) (by decide) _ _ h2
      (ndfu_mid "\" \"" (by decide) (by decide) (by decide) _ _ h3 (ndfu_close _ h1)))

lemma not_dfu_a10u_restore (fw shsh : String)
    (h1 : ¬ ("turdusra1n -ED".data <:+: fw.data))
    (h2 : ¬ ("turdusra1n -ED".data <:+: shsh.data)) :
    ¬ ("turdusra1n -ED".data <:+: (a10_untethered_restore_command fw shsh).data) := by
  have hdata : (a10_untethered_restore_command fw shsh).data =
      (TURDUS_MERULA_PATH ++ " -w --load-shsh \"").data ++
        (shsh.data ++ (("\" \"" : String).data ++ (fw.data ++ ("\"" : String).data))) := by
    simp [a10_untethered_restore_command, String.data_append]
  rw [hdata]
  exact not_infix_append_endQuote _ _ _ (by decide) (by decide) (by decide)
    (ndfu_mid "\" \"" (by decide) (by decide) (by decide) _ _ h2 (ndfu_close _ h1))

lemma not_dfu_a9_boot (pte : String)
    (h1 : ¬ ("turdusra1n -ED".data <:+: pte.data)) :
    ¬ ("turdusra1n -ED".data <:+: (a9_boot_command pte).data) := by
  have hdata : (a9_boot_command pte).data =
      (TURDUSRA1N_PATH ++ " -TP \"").data ++ (pte.data ++ ("\"" : String).data) := by
    simp [a9_boot_command, String.data_append]
  rw [hdata]
  exact not_infix_append_endQuote _ _ _ (by decide) (by decide) (by decide) (ndfu_close _ h1)

lemma not_dfu_a10_boot (ib sg tg : String)
    (h1 : ¬ ("turdusra1n -ED".data <:+: ib.data))
    (h2 : ¬ ("turdusra1n -ED".data <:+: sg.data))
    (h3 : ¬ ("turdusra1n -ED".data <:+: tg.data)) :
    ¬ ("turdusra1n -ED".data <:+: (a10_boot_command ib sg tg).data) := by
  have hdata : (a10_boot_command ib sg tg).data =
      (TURDUSRA1N_PATH ++ " -t \"").data ++
        (ib.data ++ (("\" -i \"" : String).data ++
          (sg.data ++ (("\" -p \"" : String).data ++ (tg.data ++ ("\"" : String).data))))) := by
    simp [a10_boot_command, String.data_append]
  rw [hdata]
  exact not_infix_append_endQuote _ _ _ (by decide) (by decide) (by decide)
    (ndfu_mid "\" -i \"" (by decide) (by decide) (by decide) _ _ h1
      (ndfu_mid "\" -p \"" (by decide) (by decide) (by decide) _ _ h2 (ndfu_close _ h3)))


/-- C10 counterexample: stall-sensitivity is a plain substring test, so a
restore command whose firmware path itself contains `turdusra1n -ED`
is classified stall-sensitive — the non-DFU commands are not *never*
stall-sensitive. -/
theorem is_dfu_command_restore_pathological :
    is_dfu_command (a10_tethered_restore_command "turdusra1n -ED.ipsw") = true := by decide

/-- C10 amended: a session is stall-sensitive exactly when the literal
substring `turdusra1n -ED` occurs in its command string; hence the
tethered (`-ED`) and untethered (`-EDb <generator>`, for every generator)
DFU-entry commands are always stall-sensitive, the fixed permissions
command never is, and the extraction, restore and boot commands are not
stall-sensitive provided no interpolated argument itself contains that
literal substring.  A non-stall-sensitive command spawns exactly one
process. -/
theorem is_dfu_command_classification :
    (∀ command : String, is_dfu_command command = true ↔
      "turdusra1n -ED".data <:+: command.data) ∧
    is_dfu_command enter_dfu_command = true ∧
    (∀ generator, is_dfu_command (enter_dfu_untethered_command generator) = true) ∧
    is_dfu_command permissions_command = false ∧
    (∀ fw, is_dfu_command fw = false → is_dfu_command (get_shcblock_command fw) = false) ∧
    (∀ shc fw, is_dfu_command shc = false → is_dfu_command fw = false →
      is_dfu_command (get_pteblock_command shc fw) = false) ∧
    (∀ fw pte, is_dfu_command fw = false → is_dfu_command pte = false →
      is_dfu_command (a9_tethered_restore_command fw pte) = false) ∧
    (∀ fw, is_dfu_command fw = false → is_dfu_command (a10_tethered_restore_command fw) = false) ∧
    (∀ fw shsh shc, is_dfu_command fw = false → is_dfu_command shsh = false →
      is_dfu_command shc = false →
      is_dfu_command (a9_untethered_restore_command fw shsh shc) = false) ∧
    (∀ fw shsh, is_dfu_command fw = false → is_dfu_command shsh = false →
      is_dfu_command (a10_untethered_restore_command fw shsh) = false) ∧
    (∀ pte, is_dfu_command pte = false → is_dfu_command (a9_boot_command pte) = false) ∧
    (∀ ib sg tg, is_dfu_command ib = false → is_dfu_command sg = false →
      is_dfu_command tg = false → is_dfu_command (a10_boot_command ib sg tg) = false) ∧
    (∀ (g : GenBehavior) (res : GenResult) (rest : List GenBehavior),
      runGen false g = some res →
      Option.map RunResult.spawns (runSession false false (g :: rest)) = some 1) := by
  have hiff : ∀ s : String, is_dfu_command s = false ↔
      ¬ ("turdusra1n -ED".data <:+: s.data) := by
    intro s
    simp [is_dfu_command]
  refine ⟨?_, by decide, ?_, by decide, ?_, ?_, ?_, ?_, ?_, ?_, ?_, ?_, ?_⟩
  · intro c
    simp [is_dfu_command]
  · intro g
    simp only [is_dfu_command, decide_eq_true_eq]
    have hdata : (enter_dfu_untethered_command g).data =
        (TURDUSRA1N_PATH ++ " -EDb ").data ++ g.data := by
      simp [enter_dfu_untethered_command, String.data_append]
    rw [hdata]
    have hbase : "turdusra1n -ED".data <:+: (TURDUSRA1N_PATH ++ " -EDb ").data := by decide
    have hext : (TURDUSRA1N_PATH ++ " -EDb ").data <:+:
        (TURDUSRA1N_PATH ++ " -EDb ").data ++ g.data := ⟨[], g.data, by simp⟩
    exact hbase.trans hext
  · intro fw h
    exact (hiff _).mpr (not_dfu_get_shcblock fw ((hiff _).mp h))
  · intro shc fw h1 h2
    exact (hiff _).mpr (not_dfu_get_pteblock shc fw ((hiff _).mp h1) ((hiff _).mp h2))
  · intro fw pte h1 h2
    exact (hiff _).mpr (not_dfu_a9t_restore fw pte ((hiff _).mp h1) ((hiff _).mp h2))
  · intro fw h
    exact (hiff _).mpr (not_dfu_a10t_restore fw ((hiff _).mp h))
  · intro fw shsh shc h1 h2 h3
    exact (hiff _).mpr
      (not_dfu_a9u_restore fw shsh shc ((hiff _).mp h1) ((hiff _).mp h2) ((hiff _).mp h3))
  · intro fw shsh h1 h2
    exact (hiff _).mpr (not_dfu_a10u_restore fw shsh ((hiff _).mp h1) ((hiff _).mp h2))
  · intro pte h
    exact (hiff _).mpr (not_dfu_a9_boot pte ((hiff _).mp h))
  · intro ib sg tg h1 h2 h3
    exact (hiff _).mpr
      (not_dfu_a10_boot ib sg tg ((hiff _).mp h1) ((hiff _).mp h2) ((hiff _).mp h3))
  · intro g res rest h
    rw [runSession, if_neg (by simp), runLoopGo.eq_def]
    rcases res with ⟨e, o⟩
    rcases o <;> simp [h]

/-- Witness for C10 on concrete benign paths and a concrete generator. -/
theorem is_dfu_command_classification_witness :
    is_dfu_command "x.ipsw" = false ∧
    is_dfu_command (get_shcblock_command "x.ipsw") = false ∧
    is_dfu_command (get_pteblock_command "s.bin" "x.ipsw") = false ∧
    is_dfu_command (a9_tethered_restore_command "x.ipsw" "p.bin") = false ∧
    is_dfu_command (a10_tethered_restore_command "x.ipsw") = false ∧
    is_dfu_command (a9_untethered_restore_command "x.ipsw" "t.shsh2" "s.bin") = false ∧
    is_dfu_command (a10_untethered_restore_command "x.ipsw" "t.shsh2") = false ∧
    is_dfu_command (a9_boot_command "p.bin") = false ∧
    is_dfu_command (a10_boot_command "i.img4" "s.img4" "p.im4p") = false ∧
    is_dfu_command (enter_dfu_untethered_command "0xbd34a880be0b53f3") = true ∧
    Option.map RunResult.spawns (runSession false false [okGen]) = some 1 := by
  obtain ⟨hiff, hted, hunt, hperm, hshc, hpte, ha9t, ha10t, ha9u, ha10u, hb9, hb10, honce⟩ :=
    is_dfu_command_classification
  refine ⟨by decide, ?_, ?_, ?_, ?_, ?_, ?_, ?_, ?_, ?_, ?_⟩
  · exact hshc "x.ipsw" (by decide)
  · exact hpte "s.bin" "x.ipsw" (by decide) (by decide)
  · exact ha9t "x.ipsw" "p.bin" (by decide) (by decide)
  · exact ha10t "x.ipsw" (by decide)
  · exact ha9u "x.ipsw" "t.shsh2" "s.bin" (by decide) (by decide) (by decide)
  · exact ha10u "x.ipsw" "t.shsh2" (by decide) (by decide)
  · exact hb9 "p.bin" (by decide)
  · exact hb10 "i.img4" "s.img4" "p.im4p" (by decide) (by decide) (by decide)
  · exact hunt "0xbd34a880be0b53f3"
  · exact honce okGen ⟨["x"], .exitOk⟩ [] (by decide)

end Turdus
